import Mathlib

/-!
# Verification of the randomorg Go client (sgade/randomorg)

Shallow embedding of the client's request/response engine:

* `JValue`/`JObj` model the dynamically typed JSON values Go's
  `encoding/json` produces (`map[string]interface{}` and friends).
  JSON numbers in this protocol are integral (quota counters and
  generated integers), so they are modelled as `Int`; Go's
  `int(x.(float64))`/`int64(f)` conversions are the identity on such
  values.
* `jsonMap`, `invokeRequest`, `requestCommand` embed the functions of
  the same names from `randomorg.go`; the response side of the HTTP
  exchange is an explicit input (`Exchange`).
* `Usage` and `parseAndSaveUsage` embed `usage.go`; a Go `panic` is an
  explicit `Option String` / `Outcome.crash` result.  The merge target
  aliases `r.usage` when it is non-nil, so on a panic the partial field
  updates persist exactly when the cache already existed.
* `usageLoop` embeds the mutually recursive `Usage`/`GetUsage` pair,
  indexed by fuel so that non-termination is observable as `none` for
  every fuel.
* `GenerateIntegers`/`GenerateBlobs` embed the generator shims of
  `basic.go`, reporting how many network calls were made.
-/

set_option autoImplicit false

namespace Randomorg

/-- Dynamically typed JSON value, as produced by Go `encoding/json`
into `interface{}`.  An absent map key and JSON `null` both read back
as the nil interface, modelled by `null`. -/
inductive JValue where
  | null
  | bool (b : Bool)
  | num (x : Int)
  | str (s : String)
  | arr (xs : List JValue)
  | obj (fields : List (String × JValue))

/-- A Go `map[string]interface{}` (JSON object). -/
abbrev JObj := List (String × JValue)

/-- Lookup `json[key]` on a Go map: the nil interface (here `JValue.null`)
when the key is absent. -/
def jlookup : JObj → String → JValue
  | [], _ => JValue.null
  | (k1, v) :: rest, k => if k1 = k then v else jlookup rest k

/-- Test `JValue.isNull v`: true exactly on the nil interface. -/
def JValue.isNull : JValue → Bool
  | JValue.null => true
  | _ => false

/-- The Go error values that can reach a caller of this client.
`jsonFormat` is the sentinel `ErrJSONFormat`/`ErrJsonFormat`,
`paramRange` the sentinel `ErrParamRange`, `unmarshal` a
`json.Unmarshal` failure propagated unchanged, `transport` an
`http.Client.Do`/`ioutil.ReadAll` failure propagated unchanged, and
`api` the error built by `fmt.Errorf(errAPI, code, message)`, carrying
the service's `code` and `message` values verbatim. -/
inductive GoError where
  | jsonFormat
  | paramRange
  | unmarshal (raw : String)
  | transport (msg : String)
  | api (code : JValue) (message : JValue)

/-- The identity test `err == ErrJSONFormat` used in `GetUsage`:
only the JSON-format sentinel itself compares equal. -/
def GoError.isJsonFormat : GoError → Bool
  | GoError.jsonFormat => true
  | _ => false

/-- The spec's `FormatError` taxonomy class: errors saying the response
body does not match the expected envelope shape.  It covers the
`ErrJSONFormat` sentinel and `json.Unmarshal` decode failures. -/
def GoError.isFormat : GoError → Bool
  | GoError.jsonFormat => true
  | GoError.unmarshal _ => true
  | _ => false

/-- Result of running a piece of Go code: a value, a returned error, or
a `panic` (modelled as `crash`). -/
inductive Outcome (α : Type) where
  | ok (a : α)
  | err (e : GoError)
  | crash (msg : String)

/-- Function `jsonMap` from `randomorg.go`: fetch `key` from a JSON object and
require it to be an object itself; `ErrJSONFormat` when the value is
nil (absent or JSON null) or not a `map[string]interface{}`. -/
def jsonMap (json : JObj) (key : String) : Except GoError JObj :=
  match jlookup json key with
  | JValue.null => Except.error GoError.jsonFormat
  | JValue.obj m => Except.ok m
  | _ => Except.error GoError.jsonFormat

/-- A parsed `time.Time` value, as far as the RFC 3339 layout
determines it: calendar fields, nanoseconds, and the numeric zone
offset in minutes. -/
structure GoTime where
  year : Nat
  month : Nat
  day : Nat
  hour : Nat
  minute : Nat
  second : Nat
  nanos : Nat
  offsetMin : Int
deriving DecidableEq

/-- The zero `time.Time` (January 1, year 1, 00:00:00 UTC). -/
def GoTime.zero : GoTime := ⟨1, 1, 1, 0, 0, 0, 0, 0⟩

/-- Decimal digit test on a character. -/
def isDigit (c : Char) : Bool := 48 ≤ c.toNat && c.toNat ≤ 57

/-- Value of a decimal digit character. -/
def dval (c : Char) : Nat := c.toNat - 48

/-- Optional fractional-second part of the `RFC3339Nano` layout: either
no fraction, or a dot followed by at least one digit. Returns the
fraction's value and the remaining characters. -/
def parseFrac : List Char → Option (Nat × List Char)
  | '.' :: rest =>
    let ds := rest.takeWhile (fun c => isDigit c)
    if ds.length = 0 then none
    else some (ds.foldl (fun a c => 10 * a + dval c) 0, rest.dropWhile (fun c => isDigit c))
  | rest => some (0, rest)

/-- Timezone part of the `RFC3339Nano` layout: `Z` or `±hh:mm`,
returned as a signed offset in minutes. -/
def parseTZ : List Char → Option Int
  | ['Z'] => some 0
  | [sgn, h1, h2, ':', m1, m2] =>
    if (sgn == '+' || sgn == '-') && isDigit h1 && isDigit h2 && isDigit m1 && isDigit m2 then
      let hh := 10 * dval h1 + dval h2
      let mm := 10 * dval m1 + dval m2
      if hh ≤ 23 ∧ mm ≤ 59 then
        some (if sgn == '-' then -(60 * hh + mm : Int) else (60 * hh + mm : Int))
      else none
    else none
  | _ => none

/-- Model of Go stdlib `time.Parse(time.RFC3339Nano, _)` (not part of
this repository): a fixed `YYYY-MM-DDTHH:MM:SS` date-time, an optional
fractional second, and a `Z` or `±hh:mm` zone, with the component range
checks.  Everything else fails to parse. -/
def parseRFC3339Core : List Char → Option GoTime
  | y1 :: y2 :: y3 :: y4 :: '-' :: mo1 :: mo2 :: '-' :: d1 :: d2 :: 'T' ::
      h1 :: h2 :: ':' :: mi1 :: mi2 :: ':' :: s1 :: s2 :: rest =>
    if isDigit y1 && isDigit y2 && isDigit y3 && isDigit y4 && isDigit mo1 && isDigit mo2 &&
        isDigit d1 && isDigit d2 && isDigit h1 && isDigit h2 && isDigit mi1 && isDigit mi2 &&
        isDigit s1 && isDigit s2 then
      let year := 1000 * dval y1 + 100 * dval y2 + 10 * dval y3 + dval y4
      let month := 10 * dval mo1 + dval mo2
      let day := 10 * dval d1 + dval d2
      let hour := 10 * dval h1 + dval h2
      let minute := 10 * dval mi1 + dval mi2
      let second := 10 * dval s1 + dval s2
      if 1 ≤ month ∧ month ≤ 12 ∧ 1 ≤ day ∧ day ≤ 31 ∧ hour ≤ 23 ∧ minute ≤ 59 ∧ second ≤ 59 then
        match parseFrac rest with
        | some (ns, tzrest) =>
          match parseTZ tzrest with
          | some off => some ⟨year, month, day, hour, minute, second, ns, off⟩
          | none => none
        | none => none
      else none
    else none
  | _ => none

/-- Go `time.Parse(iso8601Example, s)` where `iso8601Example = time.RFC3339Nano`. -/
def goTimeParse (s : String) : Option GoTime := parseRFC3339Core s.toList

/-- Go `strings.Replace` with count 1, space to T, on the character list. -/
def replaceFirstSpaceTAux : List Char → List Char
  | [] => []
  | c :: cs => if c = ' ' then 'T' :: cs else c :: replaceFirstSpaceTAux cs

/-- Go `strings.Replace` with count 1, replacing the first space by T. -/
def replaceFirstSpaceT (s : String) : String := String.mk (replaceFirstSpaceTAux s.toList)

/-- The `Usage` struct from `usage.go`. -/
structure Usage where
  Status : String
  CreationTime : GoTime
  BitsLeft : Int
  RequestLeft : Int
  TotalBits : Int
  TotalRequests : Int
  isComplete : Bool
deriving DecidableEq

/-- The Go zero value `Usage{}`. -/
def Usage.zero : Usage := ⟨"", GoTime.zero, 0, 0, 0, 0, false⟩

/-- One string-typed quota field of `parseAndSaveUsage`: nil leaves the
old value and clears the completeness accumulator, a string overwrites,
anything else is a failing `.(string)` type assertion (panic). -/
def stepStr (v : JValue) (old : String) (c : Bool) : Except String (String × Bool) :=
  match v with
  | JValue.null => Except.ok (old, false)
  | JValue.str s => Except.ok (s, c)
  | _ => Except.error "interface conversion"

/-- The `creationTime` field of `parseAndSaveUsage`: nil clears the
completeness accumulator; a string is space-fixed and parsed, a parse
failure is `panic(err)`; a non-string is a failing `.(string)` type
assertion (panic). -/
def stepTime (v : JValue) (old : GoTime) (c : Bool) : Except String (GoTime × Bool) :=
  match v with
  | JValue.null => Except.ok (old, false)
  | JValue.str s =>
    match goTimeParse (replaceFirstSpaceT s) with
    | some t => Except.ok (t, c)
    | none => Except.error "parsing time"
  | _ => Except.error "interface conversion"

/-- One numeric quota field of `parseAndSaveUsage`: nil leaves the old
value and clears the completeness accumulator, a number overwrites via
`int(x.(float64))`, anything else is a failing type assertion (panic). -/
def stepInt (v : JValue) (old : Int) (c : Bool) : Except String (Int × Bool) :=
  match v with
  | JValue.null => Except.ok (old, false)
  | JValue.num x => Except.ok (x, c)
  | _ => Except.error "interface conversion"

/-- The field-by-field body of `parseAndSaveUsage`, threading the merge
target and the local `isComplete` accumulator through the six quota
fields in source order.  An error is a Go panic and carries the
partially updated struct (field writes before the panic have already
happened). -/
def mergeSteps (u0 : Usage) (json : JObj) : Except (Usage × String) (Usage × Bool) :=
  match stepStr (jlookup json "status") u0.Status true with
  | Except.error m => Except.error (u0, m)
  | Except.ok (s1, c1) =>
    let u1 := { u0 with Status := s1 }
    match stepTime (jlookup json "creationTime") u1.CreationTime c1 with
    | Except.error m => Except.error (u1, m)
    | Except.ok (t2, c2) =>
      let u2 := { u1 with CreationTime := t2 }
      match stepInt (jlookup json "bitsLeft") u2.BitsLeft c2 with
      | Except.error m => Except.error (u2, m)
      | Except.ok (b3, c3) =>
        let u3 := { u2 with BitsLeft := b3 }
        match stepInt (jlookup json "requestsLeft") u3.RequestLeft c3 with
        | Except.error m => Except.error (u3, m)
        | Except.ok (r4, c4) =>
          let u4 := { u3 with RequestLeft := r4 }
          match stepInt (jlookup json "totalBits") u4.TotalBits c4 with
          | Except.error m => Except.error (u4, m)
          | Except.ok (tb5, c5) =>
            let u5 := { u4 with TotalBits := tb5 }
            match stepInt (jlookup json "totalRequests") u5.TotalRequests c5 with
            | Except.error m => Except.error (u5, m)
            | Except.ok (tr6, c6) =>
              Except.ok ({ u5 with TotalRequests := tr6 }, c6)

/-- Function `parseAndSaveUsage` from `usage.go`.  The first component is the
new `r.usage`; the second is `some msg` when the Go code panics.  When
`r.usage` is non-nil the merge target aliases it, so on a panic the
partial updates are already visible in `r.usage`; when it is nil the
fresh struct is never stored (the final `r.usage = usage` assignment is
not reached), and the never-executed `isComplete = false` after
`panic(err)` is dead code and has no embedding. -/
def parseAndSaveUsage (rusage : Option Usage) (json : JObj) : Option Usage × Option String :=
  match mergeSteps (rusage.getD Usage.zero) json with
  | Except.ok (u, c) => (some { u with isComplete := c }, none)
  | Except.error (u, m) => (if rusage.isSome then some u else none, some m)

/-- The response side of one HTTP exchange, the input that decides what
`invokeRequest` does after `client.Do`: a transport/read failure, a
body `json.Unmarshal` cannot decode into a `map[string]interface{}`,
or a decoded top-level JSON object. -/
inductive Body where
  | malformed (raw : String)
  | json (obj : JObj)

/-- One network exchange as observed by `invokeRequest`. -/
inductive Exchange where
  | transportFail (msg : String)
  | response (b : Body)

/-- Function `invokeRequest` from `randomorg.go`, from the point the response is
available (request building, marshalling and header setting do not fail
for the parameter shapes this client builds).  Transport and unmarshal
errors are returned unchanged; then `result` is extracted, and failing
that an `error` object with its `code`/`message` values; if both are
missing the inner `jsonMap` error (`ErrJSONFormat`) is returned. -/
def invokeRequest (ex : Exchange) : Except GoError JObj :=
  match ex with
  | Exchange.transportFail m => Except.error (GoError.transport m)
  | Exchange.response (Body.malformed raw) => Except.error (GoError.unmarshal raw)
  | Exchange.response (Body.json body) =>
    match jsonMap body "result" with
    | Except.ok result => Except.ok result
    | Except.error _ =>
      match jsonMap body "error" with
      | Except.error e2 => Except.error e2
      | Except.ok errObj =>
        Except.error (GoError.api (jlookup errObj "code") (jlookup errObj "message"))

/-- Function `requestCommand` from `randomorg.go`: invoke, merge usage data
unconditionally on success, then extract `result.random.data`.  The
`random["data"].([]interface{})` assertion is unchecked, so a missing
or non-array `data` is a panic (`crash`), not an error return. -/
def requestCommand (st : Option Usage) (ex : Exchange) :
    Option Usage × Outcome (List JValue) :=
  match invokeRequest ex with
  | Except.error e => (st, Outcome.err e)
  | Except.ok result =>
    match parseAndSaveUsage st result with
    | (st1, some m) => (st1, Outcome.crash m)
    | (st1, none) =>
      match jsonMap result "random" with
      | Except.error e => (st1, Outcome.err e)
      | Except.ok random =>
        match jlookup random "data" with
        | JValue.arr xs => (st1, Outcome.ok xs)
        | _ => (st1, Outcome.crash "interface conversion")

/-- What a generator call produced: the new usage cache, the returned
value or error or panic, and how many network requests were issued. -/
structure GenResult (α : Type) where
  usage : Option Usage
  outcome : Outcome α
  networkCalls : Nat

/-- The per-element `value.(float64)` assertions followed by `int64(f)`
in `GenerateIntegers`'s result loop: a non-numeric element is a failing
type assertion (panic). -/
def coerceInts : List JValue → Except String (List Int)
  | [] => Except.ok []
  | JValue.num x :: rest =>
    match coerceInts rest with
    | Except.ok xs => Except.ok (x :: xs)
    | Except.error m => Except.error m
  | _ :: _ => Except.error "interface conversion"

/-- The per-element `value.(string)` assertions in `GenerateBlobs`'s
result loop. -/
def coerceStrings : List JValue → Except String (List String)
  | [] => Except.ok []
  | JValue.str s :: rest =>
    match coerceStrings rest with
    | Except.ok xs => Except.ok (s :: xs)
    | Except.error m => Except.error m
  | _ :: _ => Except.error "interface conversion"

/-- Function `GenerateIntegers` from `basic.go`: validate `n ∈ [1, 1e4]` and
`min, max ∈ [-1e9, 1e9]` before any network call, then run
`requestCommand("generateIntegers", ...)` and coerce each returned
element. -/
def GenerateIntegers (n mn mx : Int) (st : Option Usage) (ex : Exchange) :
    GenResult (List Int) :=
  if n < 1 ∨ 10000 < n then ⟨st, Outcome.err GoError.paramRange, 0⟩
  else if mn < -1000000000 ∨ (1000000000 : Int) < mn ∨ mx < -1000000000 ∨ (1000000000 : Int) < mx then
    ⟨st, Outcome.err GoError.paramRange, 0⟩
  else
    match requestCommand st ex with
    | (st1, Outcome.crash m) => ⟨st1, Outcome.crash m, 1⟩
    | (st1, Outcome.err e) => ⟨st1, Outcome.err e, 1⟩
    | (st1, Outcome.ok values) =>
      match coerceInts values with
      | Except.ok l => ⟨st1, Outcome.ok l, 1⟩
      | Except.error m => ⟨st1, Outcome.crash m, 1⟩

/-- Function `GenerateBlobs` from `basic.go`: validate `n ∈ [1, 100]` and
`size ∈ [1, 1048576]` with `size % 8 == 0` (Go `%` is truncated
division remainder, `Int.tmod`) before any network call, then run
`requestCommand("generateBlobs", ...)` and coerce each returned
element. -/
def GenerateBlobs (n size : Int) (st : Option Usage) (ex : Exchange) :
    GenResult (List String) :=
  if n < 1 ∨ 100 < n then ⟨st, Outcome.err GoError.paramRange, 0⟩
  else if size < 1 ∨ (1048576 : Int) < size ∨ Int.tmod size 8 ≠ 0 then
    ⟨st, Outcome.err GoError.paramRange, 0⟩
  else
    match requestCommand st ex with
    | (st1, Outcome.crash m) => ⟨st1, Outcome.crash m, 1⟩
    | (st1, Outcome.err e) => ⟨st1, Outcome.err e, 1⟩
    | (st1, Outcome.ok values) =>
      match coerceStrings values with
      | Except.ok l => ⟨st1, Outcome.ok l, 1⟩
      | Except.error m => ⟨st1, Outcome.crash m, 1⟩

/-- The mutually recursive `Usage()`/`GetUsage()` pair from `usage.go`,
made total with fuel.  `mode = true` is an entry through `Usage()`
(return the cache if complete, else fall through to `GetUsage()`);
`mode = false` is an entry through `GetUsage()` (issue the `getUsage`
request with the `k`-th exchange of the environment, return any
non-`ErrJSONFormat` error, and otherwise loop back into `Usage()`).
`none` means the fuel ran out before the Go code returned. -/
def usageLoop : Nat → Bool → (Nat → Exchange) → Nat → Option Usage →
    Option (Outcome Usage × Option Usage × Nat)
  | 0, _, _, _, _ => none
  | fuel + 1, true, env, k, st =>
    match st with
    | some u =>
      if u.isComplete then some (Outcome.ok u, st, k)
      else usageLoop fuel false env k st
    | none => usageLoop fuel false env k st
  | fuel + 1, false, env, k, st =>
    match requestCommand st (env k) with
    | (st1, Outcome.crash m) => some (Outcome.crash m, st1, k + 1)
    | (st1, Outcome.err e) =>
      if e.isJsonFormat then usageLoop fuel true env (k + 1) st1
      else some (Outcome.err e, st1, k + 1)
    | (st1, Outcome.ok _) => usageLoop fuel true env (k + 1) st1

/-- The call diverges: no amount of fuel makes `usageLoop` return. -/
def usageDiverges (mode : Bool) (env : Nat → Exchange) (k : Nat) (st : Option Usage) : Prop :=
  ∀ fuel, usageLoop fuel mode env k st = none

/-! ## Characterization of `parseAndSaveUsage`

The merge body is sequential with one step per quota field.  Whether a
step panics depends only on the field's value in the current result,
never on the cache, so "the merge does not panic" is a predicate on the
result object alone (`mergeOk`), and a non-panicking merge is described
field-by-field by `mergeFields` together with the recomputed flag
`allPresent`. -/

/-- The `status` step does not panic: its value is nil or a string. -/
def stepStrOkB : JValue → Bool
  | JValue.null => true
  | JValue.str _ => true
  | _ => false

/-- The `creationTime` step does not panic: its value is nil, or a
string that parses after the space fix. -/
def stepTimeOkB : JValue → Bool
  | JValue.null => true
  | JValue.str s => (goTimeParse (replaceFirstSpaceT s)).isSome
  | _ => false

/-- A numeric quota step does not panic: its value is nil or a number. -/
def stepIntOkB : JValue → Bool
  | JValue.null => true
  | JValue.num _ => true
  | _ => false

/-- No step of `parseAndSaveUsage` panics on this result object. -/
def mergeOk (json : JObj) : Bool :=
  stepStrOkB (jlookup json "status") && stepTimeOkB (jlookup json "creationTime") &&
  stepIntOkB (jlookup json "bitsLeft") && stepIntOkB (jlookup json "requestsLeft") &&
  stepIntOkB (jlookup json "totalBits") && stepIntOkB (jlookup json "totalRequests")

/-- All six quota keys are present (non-nil) in this result object. -/
def allPresent (json : JObj) : Bool :=
  !(jlookup json "status").isNull && !(jlookup json "creationTime").isNull &&
  !(jlookup json "bitsLeft").isNull && !(jlookup json "requestsLeft").isNull &&
  !(jlookup json "totalBits").isNull && !(jlookup json "totalRequests").isNull

/-- Merged value of a string field: overwritten when present. -/
def specStr (v : JValue) (old : String) : String :=
  match v with
  | JValue.str s => s
  | _ => old

/-- Merged value of the creation time: overwritten by the parsed value
when present and parseable. -/
def specTime (v : JValue) (old : GoTime) : GoTime :=
  match v with
  | JValue.str s =>
    match goTimeParse (replaceFirstSpaceT s) with
    | some t => t
    | none => old
  | _ => old

/-- Merged value of a numeric field: overwritten when present. -/
def specInt (v : JValue) (old : Int) : Int :=
  match v with
  | JValue.num x => x
  | _ => old

/-- The six data fields after a non-panicking merge (the flag is
handled separately). -/
def mergeFields (u : Usage) (json : JObj) : Usage :=
  { u with
    Status := specStr (jlookup json "status") u.Status
    CreationTime := specTime (jlookup json "creationTime") u.CreationTime
    BitsLeft := specInt (jlookup json "bitsLeft") u.BitsLeft
    RequestLeft := specInt (jlookup json "requestsLeft") u.RequestLeft
    TotalBits := specInt (jlookup json "totalBits") u.TotalBits
    TotalRequests := specInt (jlookup json "totalRequests") u.TotalRequests }

theorem stepStr_eq (v : JValue) (old : String) (c : Bool) (h : stepStrOkB v = true) :
    stepStr v old c = Except.ok (specStr v old, c && !v.isNull) := by
  cases v <;> simp_all [stepStr, stepStrOkB, specStr, JValue.isNull]

theorem stepTime_eq (v : JValue) (old : GoTime) (c : Bool) (h : stepTimeOkB v = true) :
    stepTime v old c = Except.ok (specTime v old, c && !v.isNull) := by
  cases v <;> simp_all [stepTime, stepTimeOkB, specTime, JValue.isNull]
  case str s =>
    cases hp : goTimeParse (replaceFirstSpaceT s) <;> simp_all

theorem stepInt_eq (v : JValue) (old : Int) (c : Bool) (h : stepIntOkB v = true) :
    stepInt v old c = Except.ok (specInt v old, c && !v.isNull) := by
  cases v <;> simp_all [stepInt, stepIntOkB, specInt, JValue.isNull]

/-- A non-panicking merge computes exactly `mergeFields` plus the
freshly recomputed presence flag. -/
theorem mergeSteps_ok (u : Usage) (json : JObj) (h : mergeOk json = true) :
    mergeSteps u json = Except.ok (mergeFields u json, allPresent json) := by
  simp only [mergeOk, Bool.and_eq_true] at h
  obtain ⟨⟨⟨⟨⟨h1, h2⟩, h3⟩, h4⟩, h5⟩, h6⟩ := h
  simp only [mergeSteps,
    stepStr_eq _ _ _ h1, stepTime_eq _ _ _ h2, stepInt_eq _ _ _ h3,
    stepInt_eq _ _ _ h4, stepInt_eq _ _ _ h5, stepInt_eq _ _ _ h6]
  simp [mergeFields, allPresent, Bool.and_assoc]

theorem stepStrOkB_of_ok {v : JValue} {old : String} {c : Bool} {r : String × Bool}
    (h : stepStr v old c = Except.ok r) : stepStrOkB v = true := by
  cases v <;> simp_all [stepStr, stepStrOkB]

theorem stepTimeOkB_of_ok {v : JValue} {old : GoTime} {c : Bool} {r : GoTime × Bool}
    (h : stepTime v old c = Except.ok r) : stepTimeOkB v = true := by
  cases v <;> simp_all [stepTime, stepTimeOkB]
  case str s =>
    cases hp : goTimeParse (replaceFirstSpaceT s) <;> simp_all

theorem stepIntOkB_of_ok {v : JValue} {old : Int} {c : Bool} {r : Int × Bool}
    (h : stepInt v old c = Except.ok r) : stepIntOkB v = true := by
  cases v <;> simp_all [stepInt, stepIntOkB]

/-- Conversely, a merge that does not panic satisfies `mergeOk`. -/
theorem mergeOk_of_mergeSteps_ok {u : Usage} {json : JObj} {r : Usage × Bool}
    (h : mergeSteps u json = Except.ok r) : mergeOk json = true := by
  unfold mergeSteps at h
  split at h
  · exact absurd h (by simp)
  next heq1 =>
  try dsimp only at h
  split at h
  · exact absurd h (by simp)
  next heq2 =>
  try dsimp only at h
  split at h
  · exact absurd h (by simp)
  next heq3 =>
  try dsimp only at h
  split at h
  · exact absurd h (by simp)
  next heq4 =>
  try dsimp only at h
  split at h
  · exact absurd h (by simp)
  next heq5 =>
  try dsimp only at h
  split at h
  · exact absurd h (by simp)
  next heq6 =>
  simp [mergeOk, stepStrOkB_of_ok heq1, stepTimeOkB_of_ok heq2, stepIntOkB_of_ok heq3,
    stepIntOkB_of_ok heq4, stepIntOkB_of_ok heq5, stepIntOkB_of_ok heq6]

/-- On a `mergeOk` result object the merge does not panic and saves
exactly the field-wise merge with the flag recomputed from the current
result's key presence alone. -/
theorem parseAndSaveUsage_of_mergeOk (st : Option Usage) (json : JObj)
    (hm : mergeOk json = true) :
    parseAndSaveUsage st json =
      (some { mergeFields (st.getD Usage.zero) json with isComplete := allPresent json }, none) := by
  unfold parseAndSaveUsage
  rw [mergeSteps_ok _ _ hm]

/-- Full characterization of a non-panicking `parseAndSaveUsage` call:
the result object passes `mergeOk`, and the saved snapshot is the
field-wise merge with the flag recomputed from the current result's
key presence alone. -/
theorem parseAndSaveUsage_ok_char {st : Option Usage} {json : JObj} {st' : Option Usage}
    (h : parseAndSaveUsage st json = (st', none)) :
    mergeOk json = true ∧
      st' = some { mergeFields (st.getD Usage.zero) json with isComplete := allPresent json } := by
  by_cases hm : mergeOk json = true
  · refine ⟨hm, ?_⟩
    rw [parseAndSaveUsage_of_mergeOk st json hm] at h
    exact (congrArg Prod.fst h).symm
  · exfalso
    unfold parseAndSaveUsage at h
    rcases hms : mergeSteps (st.getD Usage.zero) json with um | r
    · rw [hms] at h
      simp at h
    · exact hm (mergeOk_of_mergeSteps_ok hms)

theorem specStr_idem (v : JValue) (old : String) :
    specStr v (specStr v old) = specStr v old := by
  cases v <;> rfl

theorem specTime_idem (v : JValue) (old : GoTime) :
    specTime v (specTime v old) = specTime v old := by
  cases v <;> try rfl
  case str s =>
    unfold specTime
    cases hp : goTimeParse (replaceFirstSpaceT s) <;> simp [hp]

theorem specInt_idem (v : JValue) (old : Int) :
    specInt v (specInt v old) = specInt v old := by
  cases v <;> rfl

/-! ## The claims -/

/-- A successful response carrying all six quota fields, here with
`creationTime` in the service's space-separated form. -/
def jsonAllSix : JObj :=
  [("status", JValue.str "running"), ("creationTime", JValue.str "2013-02-20 17:53:40Z"),
   ("bitsLeft", JValue.num 100), ("requestsLeft", JValue.num 50),
   ("totalBits", JValue.num 1000), ("totalRequests", JValue.num 20)]

/-- The snapshot `parseAndSaveUsage` builds from `jsonAllSix`. -/
def usageAllSix : Usage :=
  ⟨"running", ⟨2013, 2, 20, 17, 53, 40, 0, 0⟩, 100, 50, 1000, 20, true⟩

/-- C1 counterexample: merging a full result makes the snapshot complete
(`isComplete = true`), but a subsequent merge of a partial result carrying
only `bitsLeft` stores `isComplete = false` again, even though it merely
filled (indeed, overwrote) one field.  The completeness flag regresses,
contradicting the claim that it can never be set back to false. -/
theorem C1_counterexample :
    parseAndSaveUsage none jsonAllSix = (some usageAllSix, none) ∧
    usageAllSix.isComplete = true ∧
    parseAndSaveUsage (some usageAllSix) [("bitsLeft", JValue.num 5)] =
      (some { usageAllSix with BitsLeft := 5, isComplete := false }, none) :=
  ⟨by rfl, by rfl, by rfl⟩

/-- C1 amended: the six quota fields are indeed merged and never reset
(a key absent from the current result leaves the previously stored
value), but the completeness flag is not monotonic: after every
non-panicking merge it equals `allPresent json`, the presence of all
six keys in the *current* result alone, so a later partial result sets
a complete snapshot back to incomplete. -/
theorem C1_amended (st : Option Usage) (json : JObj) (u : Usage)
    (h : parseAndSaveUsage st json = (some u, none)) :
    u.isComplete = allPresent json ∧
    (jlookup json "status" = JValue.null → u.Status = (st.getD Usage.zero).Status) ∧
    (jlookup json "creationTime" = JValue.null →
      u.CreationTime = (st.getD Usage.zero).CreationTime) ∧
    (jlookup json "bitsLeft" = JValue.null → u.BitsLeft = (st.getD Usage.zero).BitsLeft) ∧
    (jlookup json "requestsLeft" = JValue.null →
      u.RequestLeft = (st.getD Usage.zero).RequestLeft) ∧
    (jlookup json "totalBits" = JValue.null → u.TotalBits = (st.getD Usage.zero).TotalBits) ∧
    (jlookup json "totalRequests" = JValue.null →
      u.TotalRequests = (st.getD Usage.zero).TotalRequests) := by
  obtain ⟨hok, hu⟩ := parseAndSaveUsage_ok_char h
  obtain rfl : u = { mergeFields (st.getD Usage.zero) json with isComplete := allPresent json } :=
    Option.some.injEq _ _ ▸ hu.symm ▸ rfl
  refine ⟨rfl, ?_, ?_, ?_, ?_, ?_, ?_⟩ <;>
    intro hnull <;> simp [mergeFields, specStr, specTime, specInt, hnull]

/-- C1 witness: merging a lone `bitsLeft` field into an empty cache
leaves the other five fields at their zero values and computes
`isComplete` from the single present key (hence false). -/
theorem C1_amended_witness :
    ({ Usage.zero with BitsLeft := 7 } : Usage).isComplete =
      allPresent [("bitsLeft", JValue.num 7)] :=
  (C1_amended none [("bitsLeft", JValue.num 7)] _ (by rfl)).1

/-- A response whose `result.random` object is present but has no
`data` key. -/
def exC2 : Exchange :=
  Exchange.response (Body.json [("result", JValue.obj [("random", JValue.obj [])])])

/-- C2 counterexample: when `random` is a well-formed object but lacks a
`data` array, `requestCommand` does not return `ErrJSONFormat` - the
unchecked type assertion `random["data"].([]interface{})` panics. -/
theorem C2_counterexample :
    requestCommand none exC2 = (some Usage.zero, Outcome.crash "interface conversion") ∧
    (Outcome.crash "interface conversion" : Outcome (List JValue)) ≠
      Outcome.err GoError.jsonFormat :=
  ⟨by rfl, fun h => Outcome.noConfusion h⟩

/-- C2 amended: `requestCommand` propagates transport/API errors from
`invokeRequest` unchanged and returns `ErrJSONFormat` when `random` is
absent or not an object; but when `random` is a well-formed object
whose `data` is absent or not an array, it panics on the unchecked
type assertion instead of returning a format error. -/
theorem C2_amended (st : Option Usage) (ex : Exchange) :
    (∀ e, invokeRequest ex = Except.error e → requestCommand st ex = (st, Outcome.err e)) ∧
    (∀ result st1, invokeRequest ex = Except.ok result →
      parseAndSaveUsage st result = (st1, none) →
      (jsonMap result "random" = Except.error GoError.jsonFormat →
        requestCommand st ex = (st1, Outcome.err GoError.jsonFormat)) ∧
      (∀ random, jsonMap result "random" = Except.ok random →
        (∀ xs, jlookup random "data" ≠ JValue.arr xs) →
        requestCommand st ex = (st1, Outcome.crash "interface conversion"))) := by
  refine ⟨fun e he => by simp [requestCommand, he], ?_⟩
  intro result st1 hres hmerge
  refine ⟨fun hrand => by simp [requestCommand, hres, hmerge, hrand], ?_⟩
  intro random hrand hnotarr
  simp only [requestCommand, hres, hmerge, hrand]

/-- C2 witness: on a response whose `random` object is empty, the call
panics (instantiating the amended theorem at `exC2`). -/
theorem C2_amended_witness :
    requestCommand none exC2 = (some Usage.zero, Outcome.crash "interface conversion") :=
  ((C2_amended none exC2).2 [("random", JValue.obj [])] (some Usage.zero) (by rfl) (by rfl)).2
    [] (by rfl) (fun xs h => by simp [jlookup] at h)

/-- C3: out-of-range parameters are rejected before any network
request.  `GenerateIntegers` fails with `ErrParamRange` whenever `n` is
outside `[1, 10000]` or a bound is outside `[-1e9, 1e9]`, and
`GenerateBlobs` fails with `ErrParamRange` whenever `size` is not a
multiple of 8; in both cases the usage cache is untouched and the
network-call counter stays at zero (`requestCommand` is never run). -/
theorem C3_validation (n mn mx nb size : Int) (st : Option Usage) (ex : Exchange) :
    ((n < 1 ∨ 10000 < n ∨ mn < -1000000000 ∨ (1000000000 : Int) < mn ∨
        mx < -1000000000 ∨ (1000000000 : Int) < mx) →
      GenerateIntegers n mn mx st ex = ⟨st, Outcome.err GoError.paramRange, 0⟩) ∧
    (Int.tmod size 8 ≠ 0 →
      GenerateBlobs nb size st ex = ⟨st, Outcome.err GoError.paramRange, 0⟩) := by
  constructor
  · intro h
    unfold GenerateIntegers
    split_ifs with h1 h2
    · rfl
    · rfl
    · push_neg at h1 h2
      rcases h with h | h | h | h | h | h <;> omega
  · intro h
    unfold GenerateBlobs
    split_ifs with h1 h2
    · rfl
    · rfl
    · exact absurd (Or.inr (Or.inr h)) h2

/-- C3 witness: `GenerateIntegers` with `n = 0` and the spec's
scenario `GenerateBlobs(1, 9)` both fail fast with `ErrParamRange`
and zero network calls. -/
theorem C3_validation_witness :
    GenerateIntegers 0 0 0 none (Exchange.transportFail "down") =
      ⟨none, Outcome.err GoError.paramRange, 0⟩ ∧
    GenerateBlobs 1 9 none (Exchange.transportFail "down") =
      ⟨none, Outcome.err GoError.paramRange, 0⟩ :=
  ⟨(C3_validation 0 0 0 1 9 none (Exchange.transportFail "down")).1 (Or.inl (by norm_num)),
   (C3_validation 0 0 0 1 9 none (Exchange.transportFail "down")).2 (by decide)⟩

/-- C4: a response envelope with no parseable `result` but an `error`
object whose `code` is an integer and whose `message` is a string makes
`invokeRequest` return the API error embedding exactly those two values
(neither suppressed nor translated), and `requestCommand` hands that
error to its caller unchanged. -/
theorem C4_api_error (st : Option Usage) (body errObj : JObj) (c : Int) (m : String)
    (h1 : jsonMap body "result" = Except.error GoError.jsonFormat)
    (h2 : jsonMap body "error" = Except.ok errObj)
    (h3 : jlookup errObj "code" = JValue.num c)
    (h4 : jlookup errObj "message" = JValue.str m) :
    invokeRequest (Exchange.response (Body.json body)) =
      Except.error (GoError.api (JValue.num c) (JValue.str m)) ∧
    (requestCommand st (Exchange.response (Body.json body))).2 =
      Outcome.err (GoError.api (JValue.num c) (JValue.str m)) := by
  have hinv : invokeRequest (Exchange.response (Body.json body)) =
      Except.error (GoError.api (JValue.num c) (JValue.str m)) := by
    simp [invokeRequest, h1, h2, h3, h4]
  exact ⟨hinv, by simp [requestCommand, hinv]⟩

/-- The spec's scenario envelope: error code 202, message "Invalid API
key.". -/
def body202 : JObj :=
  [("error", JValue.obj [("code", JValue.num 202), ("message", JValue.str "Invalid API key.")])]

/-- C4 witness: the spec scenario, instantiating the theorem at
`body202`. -/
theorem C4_api_error_witness :
    invokeRequest (Exchange.response (Body.json body202)) =
      Except.error (GoError.api (JValue.num 202) (JValue.str "Invalid API key.")) :=
  (C4_api_error none body202
    [("code", JValue.num 202), ("message", JValue.str "Invalid API key.")]
    202 "Invalid API key." (by rfl) (by rfl) (by rfl) (by rfl)).1

/-- C5: a malformed response body (one `json.Unmarshal` rejects) and a
decoded body holding neither a parseable `result` nor a parseable
`error` both make the client call return an error of the spec's
`FormatError` class (`GoError.isFormat`) - the decoder's error
propagated unchanged in the first case, the `ErrJSONFormat` sentinel in
the second - rather than panicking (the outcome is `Outcome.err`, never
`Outcome.crash`). -/
theorem C5_format_error (st : Option Usage) (raw : String) (body : JObj)
    (h1 : jsonMap body "result" = Except.error GoError.jsonFormat)
    (h2 : jsonMap body "error" = Except.error GoError.jsonFormat) :
    (requestCommand st (Exchange.response (Body.malformed raw)) =
      (st, Outcome.err (GoError.unmarshal raw)) ∧ (GoError.unmarshal raw).isFormat = true) ∧
    (requestCommand st (Exchange.response (Body.json body)) =
      (st, Outcome.err GoError.jsonFormat) ∧ GoError.jsonFormat.isFormat = true) := by
  refine ⟨⟨by rfl, rfl⟩, ⟨?_, rfl⟩⟩
  simp [requestCommand, invokeRequest, h1, h2]

/-- C5 witness: a non-JSON body and a JSON object with neither `result`
nor `error`, instantiating the theorem. -/
theorem C5_format_error_witness :
    requestCommand none (Exchange.response (Body.malformed "not json")) =
      (none, Outcome.err (GoError.unmarshal "not json")) :=
  ((C5_format_error none "not json" [("foo", JValue.num 1)] (by rfl) (by rfl)).1).1

/-- C6: merging the same result object twice is the same as merging it
once.  If `parseAndSaveUsage` returns normally (no panic) leaving cache
`st'`, running it again on the very same result object returns normally
and leaves `st'` unchanged - every present field is overwritten with
the identical parsed value, every absent field is left alone, and the
completeness flag is recomputed from the same key presence. -/
theorem C6_merge_idempotent (st : Option Usage) (json : JObj) (st' : Option Usage)
    (h : parseAndSaveUsage st json = (st', none)) :
    parseAndSaveUsage st' json = (st', none) := by
  obtain ⟨hok, rfl⟩ := parseAndSaveUsage_ok_char h
  rw [parseAndSaveUsage_of_mergeOk _ _ hok]
  simp [mergeFields, specStr_idem, specTime_idem, specInt_idem]

/-- C6 witness: re-merging a `bitsLeft`-only result, instantiating the
theorem after one concrete merge. -/
theorem C6_merge_idempotent_witness :
    parseAndSaveUsage (some { Usage.zero with BitsLeft := 7 }) [("bitsLeft", JValue.num 7)] =
      (some { Usage.zero with BitsLeft := 7 }, none) :=
  C6_merge_idempotent none [("bitsLeft", JValue.num 7)] _ (by rfl)

/-- A successful `generateIntegers` response whose `data` array has two
elements, both far outside `[0, 10]`. -/
def exC7 : Exchange :=
  Exchange.response (Body.json [("result", JValue.obj [("random", JValue.obj
    [("data", JValue.arr [JValue.num 99, JValue.num 100])])])])

/-- C7 counterexample: the client never re-checks the service's data.
`GenerateIntegers 1 0 10` succeeds on a response carrying two values,
99 and 100, so the call returns 2 values (not the requested 1) and the
member 99 is outside `[0, 10]`. -/
theorem C7_counterexample :
    (GenerateIntegers 1 0 10 none exC7).outcome = Outcome.ok [99, 100] ∧
    ([(99 : Int), 100].length : Int) ≠ 1 ∧
    ¬((0 : Int) ≤ 99 ∧ (99 : Int) ≤ 10) :=
  ⟨by rfl, by decide, by decide⟩

theorem coerceInts_ok {P : Int → Prop} :
    ∀ data : List JValue, (∀ v ∈ data, ∃ x : Int, v = JValue.num x ∧ P x) →
      ∃ l, coerceInts data = Except.ok l ∧ l.length = data.length ∧ ∀ x ∈ l, P x := by
  intro data
  induction data with
  | nil => exact fun _ => ⟨[], rfl, rfl, by simp⟩
  | cons v rest ih =>
    intro h
    obtain ⟨x, rfl, hPx⟩ := h v (by simp)
    obtain ⟨l, hl, hlen, hP⟩ := ih (fun w hw => h w (by simp [hw]))
    refine ⟨x :: l, by simp [coerceInts, hl], by simp [hlen], ?_⟩
    intro y hy
    rcases List.mem_cons.mp hy with rfl | hy
    exacts [hPx, hP y hy]

/-- C7 amended: the client performs no count or range re-validation of
the service's data; it returns one value per element of the returned
array.  Consequently the claim holds exactly when the service honours
its contract: if a successful in-range call's underlying response
carries a numeric `data` array of length `n` with every element in
`[min, max]`, then `GenerateIntegers` returns exactly `n` values, each
in `[min, max]`. -/
theorem C7_amended (n mn mx : Int) (st : Option Usage) (ex : Exchange) (data : List JValue)
    (hn1 : 1 ≤ n) (hn2 : n ≤ 10000)
    (hmn1 : -1000000000 ≤ mn) (hmn2 : mn ≤ 1000000000)
    (hmx1 : -1000000000 ≤ mx) (hmx2 : mx ≤ 1000000000)
    (hreq : (requestCommand st ex).2 = Outcome.ok data)
    (hlen : (data.length : Int) = n)
    (helem : ∀ v ∈ data, ∃ x : Int, v = JValue.num x ∧ mn ≤ x ∧ x ≤ mx) :
    ∃ l : List Int, (GenerateIntegers n mn mx st ex).outcome = Outcome.ok l ∧
      (l.length : Int) = n ∧ ∀ x ∈ l, mn ≤ x ∧ x ≤ mx := by
  obtain ⟨l, hcoerce, hlen2, hP⟩ := coerceInts_ok data helem
  refine ⟨l, ?_, by rw [hlen2]; exact hlen, hP⟩
  unfold GenerateIntegers
  split_ifs with h1 h2
  · omega
  · omega
  · rcases hrc : requestCommand st ex with ⟨st1, out⟩
    rw [hrc] at hreq
    simp only at hreq
    subst hreq
    simp [hcoerce]

/-- C7 witness: a conforming response with two in-range values for
`n = 2`, instantiating the amended theorem. -/
theorem C7_amended_witness :
    ∃ l : List Int,
      (GenerateIntegers 2 0 10 none (Exchange.response (Body.json [("result", JValue.obj
        [("random", JValue.obj [("data", JValue.arr [JValue.num 3, JValue.num 7])])])]))).outcome =
        Outcome.ok l ∧
      (l.length : Int) = 2 ∧ ∀ x ∈ l, 0 ≤ x ∧ x ≤ 10 :=
  C7_amended 2 0 10 none _ [JValue.num 3, JValue.num 7]
    (by norm_num) (by norm_num) (by norm_num) (by norm_num) (by norm_num) (by norm_num)
    (by rfl) (by rfl)
    (by
      intro v hv
      rcases List.mem_cons.mp hv with rfl | hv
      · exact ⟨3, rfl, by norm_num⟩
      · rcases List.mem_singleton.mp hv with rfl
        exact ⟨7, rfl, by norm_num⟩)

/-- A service that always answers the `getUsage` query with a result
carrying only `status`: the merge succeeds but the snapshot can never
become complete, and the missing `random` block yields the tolerated
`ErrJSONFormat`. -/
def envInc : Nat → Exchange := fun _ =>
  Exchange.response (Body.json [("result", JValue.obj [("status", JValue.str "running")])])

/-- The (incomplete) snapshot `envInc`'s responses produce. -/
def uInc : Usage := { Usage.zero with Status := "running" }

theorem usageLoop_envInc_aux :
    ∀ (fuel : Nat) (mode : Bool) (k : Nat) (st : Option Usage),
      st = none ∨ st = some uInc → usageLoop fuel mode envInc k st = none := by
  intro fuel
  induction fuel with
  | zero => intro mode k st _; rfl
  | succ n ih =>
    intro mode k st hst
    have hrc : requestCommand st (envInc k) = (some uInc, Outcome.err GoError.jsonFormat) := by
      rcases hst with rfl | rfl <;> rfl
    cases mode with
    | false =>
      show usageLoop (n + 1) false envInc k st = none
      simp only [usageLoop, hrc, GoError.isJsonFormat]
      exact ih true (k + 1) (some uInc) (Or.inr rfl)
    | true =>
      rcases hst with rfl | rfl
      · show usageLoop (n + 1) true envInc k none = none
        simp only [usageLoop]
        exact ih false k none (Or.inl rfl)
      · show usageLoop (n + 1) true envInc k (some uInc) = none
        have hc : uInc.isComplete = false := rfl
        simp only [usageLoop, hc, if_false, Bool.false_eq_true]
        exact ih false k (some uInc) (Or.inr rfl)

/-- C8 counterexample: entering through `GetUsage` against `envInc`,
the request's missing `random` block yields the tolerated
`ErrJSONFormat` and the merge leaves the snapshot incomplete; the
tolerated error is indeed swallowed, but `GetUsage` then recurses
through `Usage()` forever instead of returning the merged (incomplete)
snapshot - so "still returns the merged snapshot" fails. -/
theorem C8_counterexample : usageDiverges false envInc 0 none :=
  fun fuel => usageLoop_envInc_aux fuel false 0 none (Or.inl rfl)

/-- C8 amended: inside the usage-refresh path exactly the
`ErrJSONFormat` sentinel is tolerated, and `GetUsage` returns the
merged snapshot provided the merge made it complete (otherwise it
recurses and, as the counterexample shows, may never return); every
other error from the usage query surfaces unchanged to the caller, and
the generator operations propagate every `requestCommand` error -
including `ErrJSONFormat` - unchanged to their immediate caller. -/
theorem C8_amended (env : Nat → Exchange) (k : Nat) (st : Option Usage) :
    (∀ u, requestCommand st (env k) = (some u, Outcome.err GoError.jsonFormat) →
      u.isComplete = true →
      usageLoop 2 false env k st = some (Outcome.ok u, some u, k + 1)) ∧
    (∀ st1 e, requestCommand st (env k) = (st1, Outcome.err e) → e.isJsonFormat = false →
      usageLoop 2 false env k st = some (Outcome.err e, st1, k + 1)) ∧
    (∀ n mn mx e, 1 ≤ n → n ≤ 10000 → -1000000000 ≤ mn → mn ≤ 1000000000 →
      -1000000000 ≤ mx → mx ≤ 1000000000 →
      (requestCommand st (env k)).2 = Outcome.err e →
      (GenerateIntegers n mn mx st (env k)).outcome = Outcome.err e) := by
  refine ⟨?_, ?_, ?_⟩
  · intro u hrc hc
    simp only [usageLoop, hrc, GoError.isJsonFormat, hc, if_true]
  · intro st1 e hrc he
    simp only [usageLoop, hrc, he, Bool.false_eq_true, if_false]
  · intro n mn mx e hn1 hn2 hmn1 hmn2 hmx1 hmx2 hreq
    unfold GenerateIntegers
    split_ifs with h1 h2
    · omega
    · omega
    · rcases hrc : requestCommand st (env k) with ⟨st1, out⟩
      rw [hrc] at hreq
      simp only at hreq
      subst hreq
      simp

/-- A service that always answers with all six quota fields (and no
`random` block, as the real `getUsage` response). -/
def envFull : Nat → Exchange := fun _ =>
  Exchange.response (Body.json [("result", JValue.obj jsonAllSix)])

/-- C8 witness: against `envFull` the tolerated format error is
swallowed and the now-complete merged snapshot is returned,
instantiating the first branch of the amended theorem. -/
theorem C8_amended_witness :
    usageLoop 2 false envFull 0 none = some (Outcome.ok usageAllSix, some usageAllSix, 1) :=
  (C8_amended envFull 0 none).1 usageAllSix (by rfl) (by rfl)

/-- C9 counterexample: entering through `Usage()` with an empty cache
against `envInc` - responses that always leave the usage snapshot
incomplete - the mutually recursive `Usage()`/`GetUsage()` pair never
returns: the recursion is infinite, refuting termination for every
sequence of service responses. -/
theorem C9_counterexample : usageDiverges true envInc 0 none :=
  fun fuel => usageLoop_envInc_aux fuel true 0 none (Or.inl rfl)

/-- C9 amended: the generator operations are straight-line and issue at
most one network call, and the `Usage()`/`GetUsage()` pair terminates
(within three mutual steps, i.e. one network call) whenever the cache
is already complete, or the next exchange panics, returns a
non-tolerated error, or leaves a complete snapshot; but it does not
terminate on response sequences that forever leave the snapshot
incomplete (see the counterexample). -/
theorem C9_amended (env : Nat → Exchange) (k : Nat) (st : Option Usage)
    (h : (∃ u, st = some u ∧ u.isComplete = true) ∨
      (match requestCommand st (env k) with
       | (st1, Outcome.ok _) => ∃ u, st1 = some u ∧ u.isComplete = true
       | (st1, Outcome.err e) =>
         e.isJsonFormat = false ∨ ∃ u, st1 = some u ∧ u.isComplete = true
       | (_, Outcome.crash _) => True)) :
    (usageLoop 3 true env k st).isSome = true ∧
    (∀ n mn mx ex, (GenerateIntegers n mn mx st ex).networkCalls ≤ 1) := by
  constructor
  · have hdone : ∀ u : Usage, u.isComplete = true →
        usageLoop 1 true env (k + 1) (some u) = some (Outcome.ok u, some u, k + 1) := by
      intro u hu
      simp only [usageLoop, hu, if_true]
    rcases h with ⟨u, rfl, hu⟩ | hnext
    · simp only [usageLoop, hu, if_true, Option.isSome_some]
    · have hget : (usageLoop 2 false env k st).isSome = true := by
        rcases hrc : requestCommand st (env k) with ⟨st1, out⟩
        rw [hrc] at hnext
        cases out with
        | crash m => simp only [usageLoop, hrc, Option.isSome_some]
        | ok xs =>
          obtain ⟨u, rfl, hu⟩ := hnext
          simp only [usageLoop, hrc, hdone u hu, hu, if_true, Option.isSome_some]
        | err e =>
          rcases hnext with he | ⟨u, rfl, hu⟩
          · simp only [usageLoop, hrc, he, Bool.false_eq_true, if_false, Option.isSome_some]
          · cases hnf : e.isJsonFormat
            · simp only [usageLoop, hrc, hnf, Bool.false_eq_true, if_false, Option.isSome_some]
            · simp only [usageLoop, hrc, hnf, if_true, hdone u hu, hu, Option.isSome_some]
      cases st with
      | none => simpa only [usageLoop] using hget
      | some u =>
        cases hu : u.isComplete
        · simpa only [usageLoop, hu, Bool.false_eq_true, if_false] using hget
        · simp only [usageLoop, hu, if_true, Option.isSome_some]
  · intro n mn mx ex
    unfold GenerateIntegers
    split_ifs
    · simp
    · simp
    · rcases hrc : requestCommand st ex with ⟨st1, out⟩
      cases out <;> simp only [] <;> first
        | simp
        | (rcases hco : coerceInts _ with m | l <;> simp)

/-- C9 witness: against `envFull` the usage pair terminates with the
complete snapshot within fuel 3, and a generator issues at most one
network call, instantiating the amended theorem. -/
theorem C9_amended_witness :
    (usageLoop 3 true envFull 0 none).isSome = true ∧
    (∀ n mn mx ex, (GenerateIntegers n mn mx none ex).networkCalls ≤ 1) :=
  C9_amended envFull 0 none (Or.inr (Or.inr ⟨usageAllSix, rfl, rfl⟩))

/-- C10: whenever the current result object carries a `creationTime`
string that `time.Parse` (after the first space is replaced by `T`)
rejects, `parseAndSaveUsage` panics - `panic(err)` fires before the
`isComplete = false` statement of that branch, which is dead code (the
embedding accordingly has no normal-return outcome for such inputs):
the merge never returns normally, neither marking the snapshot
incomplete nor yielding an error value. -/
theorem C10_creation_time_panic (st : Option Usage) (json : JObj) (s : String)
    (h1 : jlookup json "creationTime" = JValue.str s)
    (h2 : goTimeParse (replaceFirstSpaceT s) = none) :
    (parseAndSaveUsage st json).2.isSome = true := by
  rcases hps : parseAndSaveUsage st json with ⟨st1, pan⟩
  cases pan with
  | some m => rfl
  | none =>
    obtain ⟨hok, _⟩ := parseAndSaveUsage_ok_char hps
    simp only [mergeOk, Bool.and_eq_true] at hok
    have ht : stepTimeOkB (jlookup json "creationTime") = true := hok.1.1.1.1.2
    rw [h1] at ht
    simp [stepTimeOkB, h2] at ht

/-- C10 witness: the unparseable creation time "nope" panics the merge,
instantiating the theorem. -/
theorem C10_creation_time_panic_witness :
    (parseAndSaveUsage none [("creationTime", JValue.str "nope")]).2.isSome = true :=
  C10_creation_time_panic none [("creationTime", JValue.str "nope")] "nope" rfl rfl

end Randomorg
